import Mathlib

/-
Shallow embedding of the zoom-tally sniffer core (src/python-sniffer/sniff.py).

The Python script keeps two global mutable dictionaries:
  * `ports_seen` : source port ↦ {"rate": float, "packets_seen": int, "type": None|"audio"|"video"}
  * `states`     : {"audio": None|True|False, "video": None|True|False}
and processes one packet at a time in `handle_packet`.

Modelling choices:
  * Python floats are modelled as exact rationals (ℚ).
  * The `type` field None/"audio"/"video" becomes `Option MediaType`.
  * `states` values None/True/False become `Option Bool` (True = active/talking,
    False = idle, None = unknown).
  * The two dictionaries become functions `ℕ → Option FlowRecord` and
    `MediaType → Option Bool`; the whole mutable global state is a `SnifferState`
    threaded explicitly through `handle_packet`.
  * A packet is abstracted to the fields `handle_packet` reads: source port
    (`udp_layer.sport`), UDP length (`udp_layer.len`, modelled as ℤ so that
    out-of-contract nonpositive lengths are expressible) and whether
    `ip_layer.src == my_ip` (the `sourceIsLocal` flag of the spec).
-/

set_option maxRecDepth 4000

namespace ZoomTally

/-- Media type of a classified flow: the strings "audio" / "video" in the script. -/
inductive MediaType : Type
  | audio
  | video
  deriving DecidableEq, Repr

/-- One entry of the `ports_seen` dictionary. -/
structure FlowRecord : Type where
  rate : ℚ
  packets_seen : ℕ
  type : Option MediaType
  deriving DecidableEq, Repr

/-- The fields of a captured packet that `handle_packet` actually reads. -/
structure Observation : Type where
  sourcePort : ℕ
  len : ℤ
  sourceIsLocal : Bool
  deriving DecidableEq, Repr

/-- The whole mutable global state of the script: `ports_seen` and `states`. -/
structure SnifferState : Type where
  ports_seen : ℕ → Option FlowRecord
  states : MediaType → Option Bool

/-- Threshold `audio_minimum = 50` from the script. -/
def audio_minimum : ℤ := 50

/-- Threshold `audio_maximum = 200` from the script. -/
def audio_maximum : ℤ := 200

/-- `approx_average` from the script:
`current_average -= current_average / window_size; current_average += new_sample / window_size`.
The Python default `window_size=50` is passed explicitly at the call site. -/
def approx_average (current_average new_sample window_size : ℚ) : ℚ :=
  current_average - current_average / window_size + new_sample / window_size

/-- Dictionary insertion `m[p] = r`. -/
def insertPort (m : ℕ → Option FlowRecord) (p : ℕ) (r : FlowRecord) :
    ℕ → Option FlowRecord :=
  fun q => if q = p then some r else m q

/-- Dictionary insertion `states[mt] = b`. -/
def setActivity (st : MediaType → Option Bool) (mt : MediaType) (b : Bool) :
    MediaType → Option Bool :=
  fun m => if m = mt then some b else st m

/-- The inner classification decision of `handle_packet`:
`if port["rate"] > audio_maximum: type = "video" elif port["rate"] > audio_minimum: type = "audio"`. -/
def classify (r : FlowRecord) : FlowRecord :=
  if (audio_maximum : ℚ) < r.rate then { r with type := some MediaType.video }
  else if (audio_minimum : ℚ) < r.rate then { r with type := some MediaType.audio }
  else r

/-- The statistics-update branch of `handle_packet` applied to one record:
fold the sample into the moving average, bump `packets_seen`, and re-run the
(redundantly re-guarded) classification check `if port["type"] is None and
port["packets_seen"] > 50`. -/
def updateRecord (r : FlowRecord) (len : ℤ) : FlowRecord :=
  let r1 : FlowRecord :=
    { rate := approx_average r.rate (len : ℚ) 50
      packets_seen := r.packets_seen + 1
      type := r.type }
  if r1.type = none ∧ 50 < r1.packets_seen then classify r1 else r1

/-- The part of `handle_packet` after the `ports_seen` lookup, given the record
`port` the lookup produced (for a fresh port the record has already been
inserted into `s`, mirroring the assignment inside the `except KeyError` arm). -/
def step_seen (s : SnifferState) (o : Observation) (port : FlowRecord) : SnifferState :=
  if port.type = none ∧ audio_minimum < o.len then
    { s with ports_seen := insertPort s.ports_seen o.sourcePort (updateRecord port o.len) }
  else
    match port.type with
    | some mt => { s with states := setActivity s.states mt (decide (audio_minimum < o.len)) }
    | none => s

/-- `handle_packet` from the script, as a state transformer.
Incoming (non-local) packets are dropped immediately; a fresh port gets a
record `{"rate": len, "packets_seen": 1, "type": None}` inserted and then falls
through to the same statistics/activity logic as a seen port. -/
def handle_packet (s : SnifferState) (o : Observation) : SnifferState :=
  if o.sourceIsLocal = false then s
  else
    match s.ports_seen o.sourcePort with
    | some r => step_seen s o r
    | none =>
        let r : FlowRecord := { rate := (o.len : ℚ), packets_seen := 1, type := none }
        step_seen { s with ports_seen := insertPort s.ports_seen o.sourcePort r } o r

/-- The initial global state of the script: both dictionaries hold no
classification information. -/
def init : SnifferState :=
  { ports_seen := fun _ => none, states := fun _ => none }

/-- Processing a whole capture: fold `handle_packet` over the packets in
arrival order. -/
def run (s : SnifferState) (obs : List Observation) : SnifferState :=
  obs.foldl handle_packet s

/-- A state with exactly one tracked port, used for concrete scenarios. -/
def onePort (p : ℕ) (r : FlowRecord) (st : MediaType → Option Bool) : SnifferState :=
  { ports_seen := fun q => if q = p then some r else none, states := st }

/-- An activity table where only the audio entry is set. -/
def audioOnly (b : Bool) : MediaType → Option Bool :=
  fun m => if m = MediaType.audio then some b else none

/-- An activity table where every entry is unknown. -/
def noActivity : MediaType → Option Bool :=
  fun _ => none

example : (handle_packet (onePort 5004 ⟨100, 51, some MediaType.audio⟩ noActivity)
    ⟨5004, 300, true⟩).states MediaType.audio = some true := by decide

/-! ### Basic unfolding lemmas for `handle_packet` -/

lemma hp_nonlocal (s : SnifferState) (o : Observation) (h : o.sourceIsLocal = false) :
    handle_packet s o = s := by
  simp [handle_packet, h]

lemma insertPort_self (m : ℕ → Option FlowRecord) (p : ℕ) (r : FlowRecord) :
    insertPort m p r p = some r := by
  simp [insertPort]

lemma insertPort_other (m : ℕ → Option FlowRecord) (p : ℕ) (r : FlowRecord) (q : ℕ)
    (h : q ≠ p) : insertPort m p r q = m q := by
  simp [insertPort, h]

lemma setActivity_self (st : MediaType → Option Bool) (mt : MediaType) (b : Bool) :
    setActivity st mt b mt = some b := by
  simp [setActivity]

lemma approx_average_self (x : ℚ) : approx_average x x 50 = x := by
  unfold approx_average
  ring

lemma hp_seen (s : SnifferState) (o : Observation) (r : FlowRecord)
    (hl : o.sourceIsLocal = true) (h : s.ports_seen o.sourcePort = some r) :
    handle_packet s o = step_seen s o r := by
  simp [handle_packet, hl, h]

lemma hp_new (s : SnifferState) (o : Observation)
    (hl : o.sourceIsLocal = true) (h : s.ports_seen o.sourcePort = none) :
    handle_packet s o =
      step_seen { s with ports_seen := insertPort s.ports_seen o.sourcePort ⟨(o.len : ℚ), 1, none⟩ }
        o ⟨(o.len : ℚ), 1, none⟩ := by
  simp [handle_packet, hl, h]

lemma step_seen_classified (s : SnifferState) (o : Observation) (r : FlowRecord)
    (mt : MediaType) (h : r.type = some mt) :
    step_seen s o r =
      { s with states := setActivity s.states mt (decide (audio_minimum < o.len)) } := by
  simp [step_seen, h]

lemma step_seen_small (s : SnifferState) (o : Observation) (r : FlowRecord)
    (h : r.type = none) (hlen : ¬ audio_minimum < o.len) :
    step_seen s o r = s := by
  simp [step_seen, h, hlen]

lemma step_seen_big (s : SnifferState) (o : Observation) (r : FlowRecord)
    (h : r.type = none) (hlen : audio_minimum < o.len) :
    step_seen s o r =
      { s with ports_seen := insertPort s.ports_seen o.sourcePort (updateRecord r o.len) } := by
  simp [step_seen, h, hlen]

lemma insertPort_insertPort (m : ℕ → Option FlowRecord) (p : ℕ) (a b : FlowRecord) :
    insertPort (insertPort m p a) p b = insertPort m p b := by
  funext q
  by_cases h : q = p <;> simp [insertPort, h]

lemma run_nil (s : SnifferState) : run s [] = s := rfl

lemma run_cons (s : SnifferState) (o : Observation) (l : List Observation) :
    run s (o :: l) = run (handle_packet s o) l := rfl

lemma run_append (s : SnifferState) (l1 l2 : List Observation) :
    run s (l1 ++ l2) = run (run s l1) l2 := by
  unfold run
  rw [List.foldl_append]

/-! ### A stream of identical qualifying packets on one port -/

lemma updateRecord_const (L : ℤ) (k : ℕ) :
    updateRecord ⟨(L : ℚ), k, none⟩ L =
      if 50 < k + 1 then classify ⟨(L : ℚ), k + 1, none⟩ else ⟨(L : ℚ), k + 1, none⟩ := by
  simp [updateRecord, approx_average_self]

lemma hp_const_unclassified (s : SnifferState) (p : ℕ) (L : ℤ) (k : ℕ)
    (hL : audio_minimum < L) (hr : s.ports_seen p = some ⟨(L : ℚ), k, none⟩) :
    handle_packet s ⟨p, L, true⟩ =
      { s with ports_seen := insertPort s.ports_seen p (if 50 < k + 1 then classify ⟨(L : ℚ), k + 1, none⟩ else ⟨(L : ℚ), k + 1, none⟩) } := by
  rw [hp_seen s ⟨p, L, true⟩ ⟨(L : ℚ), k, none⟩ rfl hr]
  rw [step_seen_big s ⟨p, L, true⟩ ⟨(L : ℚ), k, none⟩ rfl hL]
  rw [updateRecord_const]

lemma hp_new_const (s : SnifferState) (p : ℕ) (L : ℤ)
    (hL : audio_minimum < L) (h : s.ports_seen p = none) :
    handle_packet s ⟨p, L, true⟩ =
      { s with ports_seen := insertPort s.ports_seen p ⟨(L : ℚ), 2, none⟩ } := by
  rw [hp_new s ⟨p, L, true⟩ rfl h]
  rw [step_seen_big _ ⟨p, L, true⟩ _ rfl hL]
  rw [show ((⟨p, L, true⟩ : Observation).len) = L from rfl]
  rw [updateRecord_const]
  simp [insertPort_insertPort]

lemma run_const_aux (p : ℕ) (L : ℤ) (hL : audio_minimum < L) :
    ∀ (m k : ℕ) (s : SnifferState), s.ports_seen p = some ⟨(L : ℚ), k, none⟩ → k + m ≤ 50 →
      (run s (List.replicate m ⟨p, L, true⟩)).ports_seen p = some ⟨(L : ℚ), k + m, none⟩ ∧
      (run s (List.replicate m ⟨p, L, true⟩)).states = s.states := by
  intro m
  induction m with
  | zero =>
      intro k s hr _
      simpa [run_nil] using hr
  | succ n ih =>
      intro k s hr hle
      have hk : ¬ 50 < k + 1 := by omega
      rw [List.replicate_succ, run_cons, hp_const_unclassified s p L k hL hr, if_neg hk]
      have hlook : (insertPort s.ports_seen p ⟨(L : ℚ), k + 1, none⟩) p
          = some ⟨(L : ℚ), k + 1, none⟩ := insertPort_self _ _ _
      have := ih (k + 1)
        { s with ports_seen := insertPort s.ports_seen p ⟨(L : ℚ), k + 1, none⟩ }
        hlook (by omega)
      rw [show k + 1 + n = k + (n + 1) by omega] at this
      exact this

lemma run_const_from_init (p : ℕ) (L : ℤ) (hL : audio_minimum < L) (m : ℕ) (hm : m ≤ 48) :
    (run init (List.replicate (m + 1) ⟨p, L, true⟩)).ports_seen p
        = some ⟨(L : ℚ), m + 2, none⟩ ∧
      (run init (List.replicate (m + 1) ⟨p, L, true⟩)).states = init.states := by
  rw [List.replicate_succ, run_cons, hp_new_const init p L hL rfl]
  have hlook : (insertPort init.ports_seen p ⟨(L : ℚ), 2, none⟩) p
      = some ⟨(L : ℚ), 2, none⟩ := insertPort_self _ _ _
  have := run_const_aux p L hL m 2
    { init with ports_seen := insertPort init.ports_seen p ⟨(L : ℚ), 2, none⟩ }
    hlook (by omega)
  rw [show 2 + m = m + 2 by omega] at this
  exact this

lemma run_const_50 (p : ℕ) (L : ℤ) (hL : audio_minimum < L) :
    (run init (List.replicate 50 ⟨p, L, true⟩)).ports_seen p
      = some (classify ⟨(L : ℚ), 51, none⟩) := by
  have h49 := run_const_from_init p L hL 48 (by omega)
  norm_num at h49
  rw [show (50 : ℕ) = 49 + 1 by omega, List.replicate_succ']
  rw [run_append]
  rw [show run (run init (List.replicate 49 ⟨p, L, true⟩)) [⟨p, L, true⟩]
      = handle_packet (run init (List.replicate 49 ⟨p, L, true⟩)) ⟨p, L, true⟩ from rfl]
  rw [hp_const_unclassified _ p L 50 hL h49.1]
  rw [if_pos (by omega)]
  exact insertPort_self _ _ _

/-! ### Streams of small (non-qualifying) packets -/

lemma hp_unclassified_small (s : SnifferState) (o : Observation) (r : FlowRecord)
    (hl : o.sourceIsLocal = true) (hr : s.ports_seen o.sourcePort = some r)
    (ht : r.type = none) (hlen : ¬ audio_minimum < o.len) :
    handle_packet s o = s := by
  rw [hp_seen s o r hl hr, step_seen_small s o r ht hlen]

lemma hp_new_small (s : SnifferState) (o : Observation)
    (hl : o.sourceIsLocal = true) (h : s.ports_seen o.sourcePort = none)
    (hlen : ¬ audio_minimum < o.len) :
    handle_packet s o =
      { s with ports_seen := insertPort s.ports_seen o.sourcePort ⟨(o.len : ℚ), 1, none⟩ } := by
  rw [hp_new s o hl h, step_seen_small _ o _ rfl hlen]

lemma run_fixpoint (s : SnifferState) (o : Observation) (h : handle_packet s o = s) :
    ∀ n, run s (List.replicate n o) = s := by
  intro n
  induction n with
  | zero => rfl
  | succ m ih => rw [List.replicate_succ, run_cons, h, ih]

lemma run_small_const (p : ℕ) (L : ℤ) (hnl : ¬ audio_minimum < L) (n : ℕ) :
    run init (List.replicate (n + 1) ⟨p, L, true⟩)
      = { init with ports_seen := insertPort init.ports_seen p ⟨(L : ℚ), 1, none⟩ } := by
  rw [List.replicate_succ, run_cons, hp_new_small init ⟨p, L, true⟩ rfl rfl hnl]
  exact run_fixpoint _ _
    (hp_unclassified_small _ _ ⟨(L : ℚ), 1, none⟩ rfl (insertPort_self _ _ _) rfl hnl) n

/-! ### Frame lemmas: which parts of the state a step can touch -/

lemma step_seen_ports_other (s : SnifferState) (o : Observation) (port : FlowRecord)
    (p : ℕ) (h : p ≠ o.sourcePort) :
    (step_seen s o port).ports_seen p = s.ports_seen p := by
  unfold step_seen
  split
  · exact insertPort_other _ _ _ _ h
  · split <;> rfl

lemma hp_ports_other (s : SnifferState) (o : Observation) (p : ℕ) (h : p ≠ o.sourcePort) :
    (handle_packet s o).ports_seen p = s.ports_seen p := by
  unfold handle_packet
  split
  · rfl
  · cases hlook : s.ports_seen o.sourcePort with
    | some r => exact step_seen_ports_other s o r p h
    | none =>
        rw [step_seen_ports_other _ o _ p h]
        exact insertPort_other _ _ _ _ h

lemma step_seen_ports_self (s : SnifferState) (o : Observation) (port : FlowRecord) :
    (step_seen s o port).ports_seen o.sourcePort = s.ports_seen o.sourcePort ∨
      ((port.type = none ∧ audio_minimum < o.len) ∧
        (step_seen s o port).ports_seen o.sourcePort = some (updateRecord port o.len)) := by
  unfold step_seen
  split
  next hcond => exact Or.inr ⟨hcond, insertPort_self _ _ _⟩
  next => split <;> exact Or.inl rfl

lemma step_seen_states_cases (s : SnifferState) (o : Observation) (port : FlowRecord) :
    (step_seen s o port).states = s.states ∨
      ∃ mt, port.type = some mt ∧
        (step_seen s o port).states = setActivity s.states mt (decide (audio_minimum < o.len)) := by
  unfold step_seen
  split
  · exact Or.inl rfl
  · cases hty : port.type with
    | some mt => exact Or.inr ⟨mt, rfl, rfl⟩
    | none => exact Or.inl rfl

lemma hp_states_cases (s : SnifferState) (o : Observation) :
    (handle_packet s o).states = s.states ∨
      ∃ mt b, (handle_packet s o).states = setActivity s.states mt b := by
  unfold handle_packet
  split
  · exact Or.inl rfl
  · cases hlook : s.ports_seen o.sourcePort with
    | some r =>
        rcases step_seen_states_cases s o r with he | ⟨mt, _, he⟩
        · exact Or.inl he
        · exact Or.inr ⟨mt, _, he⟩
    | none =>
        rcases step_seen_states_cases
            { s with ports_seen := insertPort s.ports_seen o.sourcePort ⟨(o.len : ℚ), 1, none⟩ }
            o ⟨(o.len : ℚ), 1, none⟩ with he | ⟨mt, _, he⟩
        · exact Or.inl he
        · exact Or.inr ⟨mt, _, he⟩

lemma setActivity_ne_none (st : MediaType → Option Bool) (mt : MediaType) (b : Bool)
    (m : MediaType) (h : st m ≠ none) : setActivity st mt b m ≠ none := by
  unfold setActivity
  by_cases hm : m = mt <;> simp [hm, h]

lemma hp_states_preserve (s : SnifferState) (o : Observation) (m : MediaType)
    (h : s.states m ≠ none) : (handle_packet s o).states m ≠ none := by
  rcases hp_states_cases s o with he | ⟨mt, b, he⟩
  · rw [he]; exact h
  · rw [he]; exact setActivity_ne_none _ _ _ _ h

/-! ### Bounds at the moment of classification -/

lemma amin_lt_amax : (audio_minimum : ℚ) < (audio_maximum : ℚ) := by
  norm_num [audio_minimum, audio_maximum]

lemma classify_rate (r : FlowRecord) : (classify r).rate = r.rate := by
  unfold classify
  split
  · rfl
  · split <;> rfl

lemma classify_seen (r : FlowRecord) : (classify r).packets_seen = r.packets_seen := by
  unfold classify
  split
  · rfl
  · split <;> rfl

lemma classify_video_of (r : FlowRecord) (h : (audio_maximum : ℚ) < r.rate) :
    classify r = { r with type := some MediaType.video } := by
  simp [classify, h]

lemma classify_audio_of (r : FlowRecord) (h2 : ¬ (audio_maximum : ℚ) < r.rate)
    (h1 : (audio_minimum : ℚ) < r.rate) :
    classify r = { r with type := some MediaType.audio } := by
  simp [classify, h2, h1]

lemma classify_type_video (r : FlowRecord) (h0 : r.type = none)
    (h : (classify r).type = some MediaType.video) : (audio_maximum : ℚ) < r.rate := by
  by_cases h2 : (audio_maximum : ℚ) < r.rate
  · exact h2
  · by_cases h1 : (audio_minimum : ℚ) < r.rate <;> simp [classify, h2, h1, h0] at h

lemma classify_type_audio (r : FlowRecord) (h0 : r.type = none)
    (h : (classify r).type = some MediaType.audio) :
    (audio_minimum : ℚ) < r.rate ∧ r.rate ≤ (audio_maximum : ℚ) := by
  by_cases h2 : (audio_maximum : ℚ) < r.rate
  · simp [classify, h2] at h
  · by_cases h1 : (audio_minimum : ℚ) < r.rate
    · exact ⟨h1, le_of_not_lt h2⟩
    · simp [classify, h2, h1, h0] at h

lemma updateRecord_seen (r : FlowRecord) (len : ℤ) :
    (updateRecord r len).packets_seen = r.packets_seen + 1 := by
  simp only [updateRecord]
  split
  · rw [classify_seen]
  · rfl

lemma updateRecord_gate_false (r : FlowRecord) (len : ℤ) (h0 : r.type = none)
    (hg : ¬ 50 < r.packets_seen + 1) : (updateRecord r len).type = none := by
  simp [updateRecord, h0, hg]

lemma updateRecord_bounds (r : FlowRecord) (len : ℤ) (h0 : r.type = none) :
    ((updateRecord r len).type = some MediaType.video →
        (audio_maximum : ℚ) < (updateRecord r len).rate) ∧
      ((updateRecord r len).type = some MediaType.audio →
        (audio_minimum : ℚ) < (updateRecord r len).rate ∧
          (updateRecord r len).rate ≤ (audio_maximum : ℚ)) := by
  by_cases hg : 50 < r.packets_seen + 1
  · have hu : updateRecord r len
        = classify ⟨approx_average r.rate (len : ℚ) 50, r.packets_seen + 1, none⟩ := by
      simp [updateRecord, h0, hg]
    rw [hu, classify_rate]
    exact ⟨fun h => classify_type_video _ rfl h, fun h => classify_type_audio _ rfl h⟩
  · rw [updateRecord_gate_false r len h0 hg]
    simp

lemma updateRecord_classified_seen (r : FlowRecord) (len : ℤ) (h0 : r.type = none)
    (h : (updateRecord r len).type ≠ none) : 50 < (updateRecord r len).packets_seen := by
  rw [updateRecord_seen]
  by_contra hg
  exact h (updateRecord_gate_false r len h0 hg)

lemma updateRecord_classified_rate (r : FlowRecord) (len : ℤ) (h0 : r.type = none)
    (h : (updateRecord r len).type ≠ none) :
    (audio_minimum : ℚ) < (updateRecord r len).rate := by
  cases hty : (updateRecord r len).type with
  | none => exact absurd hty h
  | some mt =>
      cases mt with
      | video => exact lt_trans amin_lt_amax ((updateRecord_bounds r len h0).1 hty)
      | audio => exact ((updateRecord_bounds r len h0).2 hty).1

/-! ### Classified flows are frozen; classification happens only past the gate -/

lemma hp_classified_frozen (s : SnifferState) (o : Observation) (p : ℕ) (r : FlowRecord)
    (hr : s.ports_seen p = some r) (ht : r.type ≠ none) :
    (handle_packet s o).ports_seen p = some r := by
  cases hb : o.sourceIsLocal with
  | false => rw [hp_nonlocal s o hb]; exact hr
  | true =>
      by_cases hpp : p = o.sourcePort
      · subst hpp
        cases hty : r.type with
        | none => exact absurd hty ht
        | some mt =>
            rw [hp_seen s o r hb hr, step_seen_classified s o r mt hty]
            exact hr
      · rw [hp_ports_other s o p hpp]; exact hr

lemma hp_fresh_classification (s : SnifferState) (o : Observation) (p : ℕ) (r' : FlowRecord)
    (hbefore : s.ports_seen p = none ∨ ∃ r, s.ports_seen p = some r ∧ r.type = none)
    (hafter : (handle_packet s o).ports_seen p = some r')
    (ht : r'.type ≠ none) :
    50 < r'.packets_seen ∧ (audio_minimum : ℚ) < r'.rate := by
  have oldNone : ∀ r₀ : FlowRecord, s.ports_seen p = some r₀ → r₀.type = none := by
    intro r₀ h₀
    rcases hbefore with hn | ⟨r₁, h₁, hty₁⟩
    · rw [hn] at h₀; cases h₀
    · rw [h₁] at h₀; injection h₀ with h₀; rw [← h₀]; exact hty₁
  cases hb : o.sourceIsLocal with
  | false =>
      rw [hp_nonlocal s o hb] at hafter
      exact absurd (oldNone r' hafter) ht
  | true =>
      by_cases hpp : p = o.sourcePort
      · subst hpp
        cases hlook : s.ports_seen o.sourcePort with
        | some rold =>
            have hold : rold.type = none := oldNone rold hlook
            rw [hp_seen s o rold hb hlook] at hafter
            rcases step_seen_ports_self s o rold with heq | ⟨⟨_, _⟩, heq⟩
            · rw [heq] at hafter
              exact absurd (oldNone r' hafter) ht
            · rw [heq] at hafter
              injection hafter with hafter
              subst hafter
              exact ⟨updateRecord_classified_seen rold o.len hold ht,
                updateRecord_classified_rate rold o.len hold ht⟩
        | none =>
            rw [hp_new s o hb hlook] at hafter
            rcases step_seen_ports_self
                { s with ports_seen := insertPort s.ports_seen o.sourcePort ⟨(o.len : ℚ), 1, none⟩ }
                o ⟨(o.len : ℚ), 1, none⟩ with heq | ⟨⟨_, _⟩, heq⟩
            · rw [heq] at hafter
              simp only [insertPort_self] at hafter
              injection hafter with hafter
              rw [← hafter] at ht
              exact absurd rfl ht
            · rw [heq] at hafter
              injection hafter with hafter
              subst hafter
              exact ⟨updateRecord_classified_seen _ o.len rfl ht,
                updateRecord_classified_rate _ o.len rfl ht⟩
      · rw [hp_ports_other s o p hpp] at hafter
        exact absurd (oldNone r' hafter) ht

/-! ### The rate-bounds invariant over whole runs -/

def RateInv (s : SnifferState) : Prop :=
  ∀ p r, s.ports_seen p = some r →
    (r.type = some MediaType.video → (audio_maximum : ℚ) < r.rate) ∧
      (r.type = some MediaType.audio →
        (audio_minimum : ℚ) < r.rate ∧ r.rate ≤ (audio_maximum : ℚ))

lemma rateInv_init : RateInv init := by
  intro p r hr
  simp [init] at hr

lemma rateInv_step (s : SnifferState) (o : Observation) (h : RateInv s) :
    RateInv (handle_packet s o) := by
  intro p r hr
  cases hb : o.sourceIsLocal with
  | false => rw [hp_nonlocal s o hb] at hr; exact h p r hr
  | true =>
      by_cases hpp : p = o.sourcePort
      · subst hpp
        cases hlook : s.ports_seen o.sourcePort with
        | some rold =>
            rw [hp_seen s o rold hb hlook] at hr
            rcases step_seen_ports_self s o rold with heq | ⟨⟨hty, _⟩, heq⟩
            · rw [heq] at hr; exact h _ r hr
            · rw [heq] at hr
              injection hr with hr
              subst hr
              exact updateRecord_bounds rold o.len hty
        | none =>
            rw [hp_new s o hb hlook] at hr
            rcases step_seen_ports_self
                { s with ports_seen := insertPort s.ports_seen o.sourcePort ⟨(o.len : ℚ), 1, none⟩ }
                o ⟨(o.len : ℚ), 1, none⟩ with heq | ⟨⟨_, _⟩, heq⟩
            · rw [heq] at hr
              simp only [insertPort_self] at hr
              injection hr with hr
              subst hr
              simp
            · rw [heq] at hr
              injection hr with hr
              subst hr
              exact updateRecord_bounds _ o.len rfl
      · rw [hp_ports_other s o p hpp] at hr; exact h p r hr

lemma rateInv_run (s : SnifferState) (obs : List Observation) (h : RateInv s) :
    RateInv (run s obs) := by
  induction obs generalizing s with
  | nil => exact h
  | cons o rest ih => rw [run_cons]; exact ih _ (rateInv_step s o h)

/-! ### Concrete constant-size runs -/

lemma run300_49 (p : ℕ) :
    (run init (List.replicate 49 ⟨p, 300, true⟩)).ports_seen p
      = some ⟨((300 : ℤ) : ℚ), 50, none⟩ := by
  have h := (run_const_from_init p 300 (by norm_num [audio_minimum]) 48 (by omega)).1
  rw [show (48 : ℕ) + 1 = 49 from rfl, show (48 : ℕ) + 2 = 50 from rfl] at h
  exact h

lemma run300_video (p : ℕ) :
    (run init (List.replicate 50 ⟨p, 300, true⟩)).ports_seen p
      = some ⟨((300 : ℤ) : ℚ), 51, some MediaType.video⟩ := by
  rw [run_const_50 p 300 (by norm_num [audio_minimum])]
  rw [classify_video_of _ (by norm_num [audio_maximum])]

lemma run80_audio (p : ℕ) :
    (run init (List.replicate 50 ⟨p, 80, true⟩)).ports_seen p
      = some ⟨((80 : ℤ) : ℚ), 51, some MediaType.audio⟩ := by
  rw [run_const_50 p 80 (by norm_num [audio_minimum])]
  rw [classify_audio_of _ (by norm_num [audio_maximum]) (by norm_num [audio_minimum])]

/-! ### Remaining helper lemmas -/

lemma hp_classified_activity (s : SnifferState) (o : Observation) (r : FlowRecord)
    (mt : MediaType) (hl : o.sourceIsLocal = true)
    (hr : s.ports_seen o.sourcePort = some r) (ht : r.type = some mt) :
    (handle_packet s o).states mt = some (decide (audio_minimum < o.len)) := by
  rw [hp_seen s o r hl hr, step_seen_classified s o r mt ht]
  exact setActivity_self _ _ _

lemma updateRecord_first (len : ℤ) :
    updateRecord ⟨(len : ℚ), 1, none⟩ len
      = ⟨approx_average (len : ℚ) (len : ℚ) 50, 2, none⟩ := by
  norm_num [updateRecord]

lemma hp_new_big (s : SnifferState) (o : Observation) (hl : o.sourceIsLocal = true)
    (h : s.ports_seen o.sourcePort = none) (hlen : audio_minimum < o.len) :
    handle_packet s o
      = { s with ports_seen := insertPort s.ports_seen o.sourcePort ⟨approx_average (o.len : ℚ) (o.len : ℚ) 50, 2, none⟩ } := by
  rw [hp_new s o hl h, step_seen_big _ o _ rfl hlen, updateRecord_first]
  simp [insertPort_insertPort]

lemma run_states_preserve (s : SnifferState) (obs : List Observation) (m : MediaType)
    (h : s.states m ≠ none) : (run s obs).states m ≠ none := by
  induction obs generalizing s with
  | nil => exact h
  | cons o rest ih => rw [run_cons]; exact ih _ (hp_states_preserve s o m h)

lemma run_classified_frozen (s : SnifferState) (obs : List Observation) (p : ℕ)
    (r : FlowRecord) (hr : s.ports_seen p = some r) (ht : r.type ≠ none) :
    (run s obs).ports_seen p = some r := by
  induction obs generalizing s with
  | nil => exact hr
  | cons o rest ih => rw [run_cons]; exact ih _ (hp_classified_frozen s o p r hr ht)

lemma one_more_after_50 (p : ℕ) (L : ℤ) (hL : audio_minimum < L)
    (st : MediaType → Option Bool) :
    (handle_packet (onePort p ⟨(L : ℚ), 50, none⟩ st) ⟨p, L, true⟩).ports_seen p
      = some (classify ⟨(L : ℚ), 51, none⟩) := by
  rw [hp_const_unclassified _ p L 50 hL (by simp [onePort])]
  rw [if_pos (by omega)]
  exact insertPort_self _ _ _

/-! ## Claim theorems -/

/-- Claim C1: for every state and observation (hence every sequence of observations) and
every source port, a record whose `mediaType` is already set (Audio or Video) is never
touched again — neither its `type` nor its `rate` nor its `packets_seen` change, over a
single step and over any further sequence of observations — so the transition
Unclassified → {Audio, Video} happens at most once and never reverts; and whenever a step
turns a previously absent-or-Unclassified port into a classified one, the resulting frozen
record satisfies `packetsSeen > 50` and `runningRate > audio_minimum` (the size
threshold). -/
theorem mediaType_transition_once_and_frozen :
    (∀ (s : SnifferState) (o : Observation) (p : ℕ) (r : FlowRecord),
        s.ports_seen p = some r → r.type ≠ none →
          (handle_packet s o).ports_seen p = some r) ∧
      (∀ (s : SnifferState) (obs : List Observation) (p : ℕ) (r : FlowRecord),
        s.ports_seen p = some r → r.type ≠ none →
          (run s obs).ports_seen p = some r) ∧
      (∀ (s : SnifferState) (o : Observation) (p : ℕ) (r' : FlowRecord),
        (s.ports_seen p = none ∨ ∃ r, s.ports_seen p = some r ∧ r.type = none) →
          (handle_packet s o).ports_seen p = some r' → r'.type ≠ none →
            50 < r'.packets_seen ∧ (audio_minimum : ℚ) < r'.rate) :=
  ⟨hp_classified_frozen, run_classified_frozen, hp_fresh_classification⟩

/-- Witness for C1: a flow already classified Audio survives a 300-byte packet untouched,
and the step that classifies a port as Video (50 packets of size 300 already folded in)
produces a record with `packetsSeen = 51 > 50` and `rate = 300 > audio_minimum`. -/
theorem mediaType_transition_once_and_frozen_witness :
    (handle_packet (onePort 5004 ⟨(100 : ℚ), 51, some MediaType.audio⟩ noActivity)
        ⟨5004, 300, true⟩).ports_seen 5004 = some ⟨(100 : ℚ), 51, some MediaType.audio⟩ ∧
      (50 < (51 : ℕ) ∧ (audio_minimum : ℚ) < ((300 : ℤ) : ℚ)) := by
  constructor
  · exact mediaType_transition_once_and_frozen.1
      (onePort 5004 ⟨(100 : ℚ), 51, some MediaType.audio⟩ noActivity) ⟨5004, 300, true⟩ 5004
      ⟨(100 : ℚ), 51, some MediaType.audio⟩ (by simp [onePort]) (by simp)
  · have hafter : (handle_packet (onePort 5004 ⟨((300 : ℤ) : ℚ), 50, none⟩ noActivity)
        ⟨5004, 300, true⟩).ports_seen 5004
          = some ⟨((300 : ℤ) : ℚ), 51, some MediaType.video⟩ := by
      rw [one_more_after_50 5004 300 (by norm_num [audio_minimum]) noActivity]
      rw [classify_video_of _ (by norm_num [audio_maximum])]
    exact mediaType_transition_once_and_frozen.2.2
      (onePort 5004 ⟨((300 : ℤ) : ℚ), 50, none⟩ noActivity) ⟨5004, 300, true⟩ 5004
      ⟨((300 : ℤ) : ℚ), 51, some MediaType.video⟩
      (Or.inr ⟨⟨((300 : ℤ) : ℚ), 50, none⟩, by simp [onePort], rfl⟩) hafter (by simp)

/-- Claim C2 is false on the code: `handle_packet` does not return after inserting the
fresh record; for a first observation of length 300 (> audio_minimum) it falls through
and immediately folds a statistics update into the same call, leaving
`packetsSeen = 2`, not 1. -/
theorem first_observation_double_count_cex :
    (handle_packet init ⟨5004, 300, true⟩).ports_seen 5004 = some ⟨(300 : ℚ), 2, none⟩ ∧
      (handle_packet init ⟨5004, 300, true⟩).ports_seen 5004 ≠ some ⟨(300 : ℚ), 1, none⟩ := by
  have h : (handle_packet init ⟨5004, 300, true⟩).ports_seen 5004
      = some ⟨approx_average ((300 : ℤ) : ℚ) ((300 : ℤ) : ℚ) 50, 2, none⟩ := by
    rw [hp_new_big init ⟨5004, 300, true⟩ rfl rfl (by norm_num [audio_minimum])]
    rfl
  have ha : approx_average ((300 : ℤ) : ℚ) ((300 : ℤ) : ℚ) 50 = (300 : ℚ) := by
    rw [approx_average_self]
    norm_num
  rw [ha] at h
  refine ⟨h, ?_⟩
  rw [h]
  simp

/-- Claim C2 (amended): on the first observation of an unseen source port the code
creates the record `{rate = length, packetsSeen = 1, type = Unclassified}`, but the call
does not end there: when `length > audio_minimum` the very same call folds one
statistics update into the new record, leaving `rate = approx_average(length, length)`
and `packetsSeen = 2`; when `length ≤ audio_minimum` the record stays at
`packetsSeen = 1`. Either way the flow is still Unclassified at the end of the call
(matching the spec's `(Unclassified, false)` result) and the activity table is
untouched. -/
theorem first_observation_amended (s : SnifferState) (o : Observation)
    (hl : o.sourceIsLocal = true) (hnew : s.ports_seen o.sourcePort = none) :
    (¬ audio_minimum < o.len →
        handle_packet s o
          = { s with ports_seen := insertPort s.ports_seen o.sourcePort ⟨(o.len : ℚ), 1, none⟩ }) ∧
      (audio_minimum < o.len →
        handle_packet s o
          = { s with ports_seen := insertPort s.ports_seen o.sourcePort ⟨approx_average (o.len : ℚ) (o.len : ℚ) 50, 2, none⟩ }) ∧
      (∃ r', (handle_packet s o).ports_seen o.sourcePort = some r' ∧ r'.type = none) ∧
      (handle_packet s o).states = s.states := by
  refine ⟨fun h => hp_new_small s o hl hnew h, fun h => hp_new_big s o hl hnew h, ?_, ?_⟩
  · by_cases hlen : audio_minimum < o.len
    · refine ⟨⟨approx_average (o.len : ℚ) (o.len : ℚ) 50, 2, none⟩, ?_, rfl⟩
      rw [hp_new_big s o hl hnew hlen]
      exact insertPort_self _ _ _
    · refine ⟨⟨(o.len : ℚ), 1, none⟩, ?_, rfl⟩
      rw [hp_new_small s o hl hnew hlen]
      exact insertPort_self _ _ _
  · by_cases hlen : audio_minimum < o.len
    · rw [hp_new_big s o hl hnew hlen]
    · rw [hp_new_small s o hl hnew hlen]

/-- Witness for the amended C2: first observation of port 5004 at length 300 from the
empty state yields the double-counted record. -/
theorem first_observation_amended_witness :
    handle_packet init ⟨5004, 300, true⟩
      = { init with ports_seen := insertPort init.ports_seen 5004 ⟨approx_average ((300 : ℤ) : ℚ) ((300 : ℤ) : ℚ) 50, 2, none⟩ } :=
  (first_observation_amended init ⟨5004, 300, true⟩ rfl rfl).2.1
    (by norm_num [audio_minimum])

/-- Claim C3 is false on the code: because the first call already counts the first
packet twice, `packets_seen` reaches 51 on the 50th qualifying observation, so a port
fed size-300 packets is already classified Video after 50 observations — classification
does occur before the 51st qualifying observation. -/
theorem classification_on_50th_cex :
    (run init (List.replicate 50 ⟨5004, 300, true⟩)).ports_seen 5004
      = some ⟨(300 : ℚ), 51, some MediaType.video⟩ := by
  have h := run300_video 5004
  rw [show ((300 : ℤ) : ℚ) = (300 : ℚ) by norm_num] at h
  exact h

/-- Claim C3 (amended): starting from an unseen port, with every observation of size 300
(qualifying, since 300 > audio_minimum), the port is still Unclassified after 49
observations (`packets_seen = 50` does not pass the `> 50` gate) and becomes Video on
the 50th observation (`packets_seen = 51`, rate 300 > audio_maximum); the record is then
frozen, so it is unchanged after the 51st. -/
theorem classification_on_50th_amended :
    (run init (List.replicate 49 ⟨5004, 300, true⟩)).ports_seen 5004
        = some ⟨(300 : ℚ), 50, none⟩ ∧
      (run init (List.replicate 50 ⟨5004, 300, true⟩)).ports_seen 5004
        = some ⟨(300 : ℚ), 51, some MediaType.video⟩ ∧
      (run init (List.replicate 51 ⟨5004, 300, true⟩)).ports_seen 5004
        = some ⟨(300 : ℚ), 51, some MediaType.video⟩ := by
  have hcast : ((300 : ℤ) : ℚ) = (300 : ℚ) := by norm_num
  have h49 := run300_49 5004
  rw [hcast] at h49
  have h50 := run300_video 5004
  rw [hcast] at h50
  refine ⟨h49, h50, ?_⟩
  rw [show (51 : ℕ) = 50 + 1 from rfl, List.replicate_succ', run_append]
  rw [show run (run init (List.replicate 50 ⟨5004, 300, true⟩)) [⟨5004, 300, true⟩]
      = handle_packet (run init (List.replicate 50 ⟨5004, 300, true⟩)) ⟨5004, 300, true⟩
      from rfl]
  exact hp_classified_frozen _ _ 5004 _ h50 (by simp)

/-- Claim C4: an observation at or below `audio_minimum` on a seen, still-Unclassified
flow leaves the whole state unchanged (no statistic update, flow stays Unclassified);
consequently a port that only ever sees size-30 packets still has the record
`{rate = 30, packetsSeen = 1, type = Unclassified}` after any number of observations
(the record itself comes from the creation on the first call). -/
theorem small_packet_no_update :
    (∀ (s : SnifferState) (o : Observation) (r : FlowRecord),
        o.sourceIsLocal = true → s.ports_seen o.sourcePort = some r → r.type = none →
          o.len ≤ audio_minimum → handle_packet s o = s) ∧
      ∀ n : ℕ, (run init (List.replicate (n + 1) ⟨5004, 30, true⟩)).ports_seen 5004
        = some ⟨(30 : ℚ), 1, none⟩ := by
  constructor
  · intro s o r hl hr ht hlen
    exact hp_unclassified_small s o r hl hr ht (not_lt.mpr hlen)
  · intro n
    rw [run_small_const 5004 30 (by norm_num [audio_minimum]) n]
    rw [show ((30 : ℤ) : ℚ) = (30 : ℚ) by norm_num]
    rfl

/-- Witness for C4: a size-10 packet on a seen Unclassified port changes nothing, and
51 size-30 observations leave port 5004 at `{rate = 30, packetsSeen = 1, Unclassified}`. -/
theorem small_packet_no_update_witness :
    handle_packet (onePort 5004 ⟨(30 : ℚ), 1, none⟩ noActivity) ⟨5004, 10, true⟩
        = onePort 5004 ⟨(30 : ℚ), 1, none⟩ noActivity ∧
      (run init (List.replicate 51 ⟨5004, 30, true⟩)).ports_seen 5004
        = some ⟨(30 : ℚ), 1, none⟩ :=
  ⟨small_packet_no_update.1 _ ⟨5004, 10, true⟩ ⟨(30 : ℚ), 1, none⟩ rfl (by simp [onePort])
      rfl (by norm_num [audio_minimum]),
    small_packet_no_update.2 50⟩

/-- Claim C5: an observation whose source is not local is a complete no-op for every
input: the returned state is the old state, so the per-port records and the per-media
activity values (the snapshot) are all unchanged. -/
theorem nonlocal_observation_noop :
    ∀ (s : SnifferState) (o : Observation), o.sourceIsLocal = false →
      handle_packet s o = s ∧
        (handle_packet s o).ports_seen = s.ports_seen ∧
        (handle_packet s o).states = s.states := by
  intro s o h
  refine ⟨hp_nonlocal s o h, ?_, ?_⟩ <;> rw [hp_nonlocal s o h]

/-- Witness for C5: a non-local observation on the empty state returns it unchanged. -/
theorem nonlocal_observation_noop_witness :
    handle_packet init ⟨5004, 999999, false⟩ = init :=
  (nonlocal_observation_noop init ⟨5004, 999999, false⟩ rfl).1

/-- Claim C6: every local observation on a flow whose `mediaType` is already fixed sets
that media type's activity to Active (`true`) exactly when `length > audio_minimum` and
to Idle (`false`) otherwise; in particular, with port 5004 classified Audio, a length-300
observation sets the audio activity to Active and a following length-10 observation sets
it to Idle. -/
theorem classified_flow_sets_activity :
    (∀ (s : SnifferState) (o : Observation) (r : FlowRecord) (mt : MediaType),
        o.sourceIsLocal = true → s.ports_seen o.sourcePort = some r → r.type = some mt →
          (handle_packet s o).states mt = some (decide (audio_minimum < o.len))) ∧
      ((handle_packet (onePort 5004 ⟨(100 : ℚ), 51, some MediaType.audio⟩ noActivity)
          ⟨5004, 300, true⟩).states MediaType.audio = some true ∧
        (handle_packet (handle_packet (onePort 5004 ⟨(100 : ℚ), 51, some MediaType.audio⟩ noActivity)
            ⟨5004, 300, true⟩) ⟨5004, 10, true⟩).states MediaType.audio = some false) := by
  refine ⟨hp_classified_activity, ?_, ?_⟩
  · rw [hp_classified_activity _ ⟨5004, 300, true⟩ ⟨(100 : ℚ), 51, some MediaType.audio⟩
        MediaType.audio rfl (by simp [onePort]) rfl]
    norm_num [audio_minimum]
  · have hfrozen := hp_classified_frozen
      (onePort 5004 ⟨(100 : ℚ), 51, some MediaType.audio⟩ noActivity) ⟨5004, 300, true⟩ 5004
      ⟨(100 : ℚ), 51, some MediaType.audio⟩ (by simp [onePort]) (by simp)
    rw [hp_classified_activity _ ⟨5004, 10, true⟩ ⟨(100 : ℚ), 51, some MediaType.audio⟩
        MediaType.audio rfl hfrozen rfl]
    norm_num [audio_minimum]

/-- Witness for C6: a video-classified port receiving a 400-byte packet has its video
activity set to Active. -/
theorem classified_flow_sets_activity_witness :
    (handle_packet (onePort 6001 ⟨(120 : ℚ), 60, some MediaType.video⟩ noActivity)
        ⟨6001, 400, true⟩).states MediaType.video = some true := by
  rw [classified_flow_sets_activity.1 _ ⟨6001, 400, true⟩ ⟨(120 : ℚ), 60, some MediaType.video⟩
      MediaType.video rfl (by simp [onePort]) rfl]
  norm_num [audio_minimum]

/-- Claim C7 is false on the code: `handle_packet` performs no input validation at all —
there is no `InvalidObservation` signal — and an observation of length 0 on a flow
already classified Audio does mutate the aggregator state, flipping the audio activity
from Active to Idle. -/
theorem invalid_observation_cex :
    (onePort 5004 ⟨(100 : ℚ), 51, some MediaType.audio⟩ (audioOnly true)).states MediaType.audio
        = some true ∧
      (handle_packet (onePort 5004 ⟨(100 : ℚ), 51, some MediaType.audio⟩ (audioOnly true))
          ⟨5004, 0, true⟩).states MediaType.audio = some false := by
  constructor
  · simp [onePort, audioOnly]
  · rw [hp_classified_activity _ ⟨5004, 0, true⟩ ⟨(100 : ℚ), 51, some MediaType.audio⟩
        MediaType.audio rfl (by simp [onePort]) rfl]
    norm_num [audio_minimum]

/-- Claim C7 (amended): the core never rejects an observation — a nonpositive length (or
any source port whatsoever, the port being an unconstrained natural here) flows through
the ordinary logic, which is total, so nothing is fatal; concretely, for `length ≤ 0`: a
seen Unclassified flow is left untouched, a classified flow has its activity set to Idle
(state IS mutated, contrary to the original claim), and an unseen port gets a fresh
record `{rate = length, packetsSeen = 1, Unclassified}` created. -/
theorem invalid_observation_amended (s : SnifferState) (o : Observation)
    (hl : o.sourceIsLocal = true) (hlen : o.len ≤ 0) :
    (∀ r, s.ports_seen o.sourcePort = some r → r.type = none → handle_packet s o = s) ∧
      (∀ r mt, s.ports_seen o.sourcePort = some r → r.type = some mt →
        handle_packet s o = { s with states := setActivity s.states mt false }) ∧
      (s.ports_seen o.sourcePort = none →
        handle_packet s o
          = { s with ports_seen := insertPort s.ports_seen o.sourcePort ⟨(o.len : ℚ), 1, none⟩ }) := by
  have hnot : ¬ audio_minimum < o.len := by
    simp only [audio_minimum]
    omega
  refine ⟨fun r hr ht => hp_unclassified_small s o r hl hr ht hnot,
    fun r mt hr ht => ?_, fun hnone => hp_new_small s o hl hnone hnot⟩
  rw [hp_seen s o r hl hr, step_seen_classified s o r mt ht, decide_eq_false hnot]

/-- Witness for the amended C7: a length `-5` observation on an audio-classified port is
processed (not rejected) and records Idle for audio. -/
theorem invalid_observation_amended_witness :
    handle_packet (onePort 5004 ⟨(100 : ℚ), 51, some MediaType.audio⟩ (audioOnly true))
        ⟨5004, -5, true⟩
      = { onePort 5004 ⟨(100 : ℚ), 51, some MediaType.audio⟩ (audioOnly true) with
          states := setActivity (audioOnly true) MediaType.audio false } :=
  (invalid_observation_amended _ ⟨5004, -5, true⟩ rfl (by norm_num)).2.1
    ⟨(100 : ℚ), 51, some MediaType.audio⟩ MediaType.audio (by simp [onePort]) rfl

/-- Claim C8: the moving average is idempotent on repeated identical samples — one
`approx_average` step from a running rate already equal to the sample returns exactly the
sample (for every window size, hence for the default 50) — and each step contracts the
distance to the sample by the factor 49/50, so feeding the same length indefinitely
converges the rate to exactly that length (floats are modelled as exact rationals). -/
theorem approx_average_idempotent :
    (∀ (L W : ℚ), approx_average L L W = L) ∧
      ∀ (x L : ℚ), approx_average x L 50 - L = (x - L) * (49 / 50) := by
  constructor
  · intro L W
    unfold approx_average
    ring
  · intro x L
    unfold approx_average
    ring

/-- Claim C9: in every state reachable from the initial state, a flow classified Video
has its frozen rate above `audio_maximum`, and a flow classified Audio has its frozen
rate in `(audio_minimum, audio_maximum]`. -/
theorem classified_rate_bounds :
    ∀ (obs : List Observation) (p : ℕ) (r : FlowRecord),
      (run init obs).ports_seen p = some r →
        (r.type = some MediaType.video → (audio_maximum : ℚ) < r.rate) ∧
          (r.type = some MediaType.audio →
            (audio_minimum : ℚ) < r.rate ∧ r.rate ≤ (audio_maximum : ℚ)) :=
  fun obs p r hr => rateInv_run init obs rateInv_init p r hr

/-- Witness for C9: after 50 size-80 observations port 6000 is classified Audio and the
theorem yields `audio_minimum < 80 ≤ audio_maximum` for its frozen rate. -/
theorem classified_rate_bounds_witness :
    (audio_minimum : ℚ) < ((80 : ℤ) : ℚ) ∧ ((80 : ℤ) : ℚ) ≤ (audio_maximum : ℚ) :=
  (classified_rate_bounds (List.replicate 50 ⟨6000, 80, true⟩) 6000
      ⟨((80 : ℤ) : ℚ), 51, some MediaType.audio⟩ (run80_audio 6000)).2 rfl

/-- Claim C10: for each media type, once the activity state holds Active or Idle (is not
Unknown/None), it never becomes Unknown again in any later state, whatever observations
follow. -/
theorem activity_never_unknown_again :
    ∀ (s : SnifferState) (obs : List Observation) (m : MediaType),
      s.states m ≠ none → (run s obs).states m ≠ none :=
  fun s obs m h => run_states_preserve s obs m h

/-- Witness for C10: with the audio activity already set, two further observations
(one idle-sized, one data-sized) leave it set to something, never back to Unknown. -/
theorem activity_never_unknown_again_witness :
    (run (onePort 5004 ⟨(100 : ℚ), 51, some MediaType.audio⟩ (audioOnly true))
        [⟨5004, 10, true⟩, ⟨5004, 700, true⟩]).states MediaType.audio ≠ none :=
  activity_never_unknown_again _ _ MediaType.audio (by simp [onePort, audioOnly])

end ZoomTally
